import Mathlib

/-!
Shallow embedding of the tasklets RPC layer (the `ServiceContext` class):
two peers exchange 5-element wire messages `[kind, callId, instanceId,
methodName, payload]`; each peer keeps a sparse pending-call table
(`resolvers_`), a service registry (`services_`) and a sparse instance
table (`instances_`, slot 0 holding the built-in system service).
JS sparse arrays become `List (Option _)`; promise resolution becomes an
explicit `Settlement` event naming the pending entry that fired; `async`
methods are modelled by their awaited outcome, an `Except` of the thrown
message or the returned value.
-/

namespace Tasklets

/-- The JS values that travel through the channel in this library:
`undefined`, `null`, booleans, numbers (the ids in play are array lengths,
hence naturals), strings and arrays; `objv` stands for an object outside
this wire vocabulary (a live instance, a fresh `Object`), which the
protocol's own traffic never carries — whether `postMessage` can
structured-clone such a host object is outside the model. -/
inductive Value where
  | undef
  | nullv
  | bool (b : Bool)
  | num (n : Nat)
  | str (s : String)
  | arr (elems : List Value)
  | objv

/-- JS truthiness test (`!v` in the source negates this): `undefined`,
`null`, `false`, `0` and the empty string are falsy; arrays and other
objects are truthy. -/
def Value.falsy : Value → Bool
  | .undef => true
  | .nullv => true
  | .bool b => !b
  | .num n => n == 0
  | .str s => s == ""
  | .arr _ => false
  | .objv => false

mutual

/-- JS `String()` coercion / template-literal interpolation on the modelled
value domain; arrays join their elements with "," rendering `null` and
`undefined` elements as empty, as `Array.prototype.toString` does; a plain
object renders through `Object.prototype.toString`. -/
def Value.jsString : Value → String
  | .undef => "undefined"
  | .nullv => "null"
  | .bool b => if b then "true" else "false"
  | .num n => toString n
  | .str s => s
  | .arr l => String.intercalate "," (jsStringElems l)
  | .objv => "[object Object]"

/-- Elementwise rendering used by `Value.jsString` on arrays. -/
def jsStringElems : List Value → List String
  | [] => []
  | .undef :: vs => "" :: jsStringElems vs
  | .nullv :: vs => "" :: jsStringElems vs
  | v :: vs => v.jsString :: jsStringElems vs

end

/-- The numeric value of a list of decimal digit characters. -/
def digitsToNat (l : List Char) : Nat :=
  l.foldl (fun a c => a * 10 + (c.toNat - 48)) 0

/-- Rendering of a possibly-NaN id inside an error template literal. -/
def jsShowId : Option Nat → String
  | some n => toString n
  | none => "NaN"

/-- Association-list lookup: JS `Map.get` (a Map has no prototype-chain
fallback for its keys) and own-property object reads; `methodsGet` layers
the `Object.prototype` chain of a bare object literal on top of this. -/
def mapGet (m : List (String × α)) (k : String) : Option α :=
  match m with
  | [] => none
  | (k', v) :: rest => if k' = k then some v else mapGet rest k

/-- Association-list update: JS `Map.set` / object property assignment;
an existing key keeps its position, a new key is appended, matching JS
insertion-order key semantics. -/
def mapSet (m : List (String × α)) (k : String) (v : α) : List (String × α) :=
  match m with
  | [] => [(k, v)]
  | (k', v') :: rest => if k' = k then (k', v) :: rest else (k', v') :: mapSet rest k v

/-- `Object.keys` of an insertion-ordered object. -/
def objKeys (m : List (String × α)) : List String := m.map Prod.fst

/-- Sparse-array read `table[id]`: a hole (deleted slot), an out-of-range
index and a NaN index all give `undefined`. -/
def sparseGet (t : List (Option α)) : Option Nat → Option α
  | some i => (t.get? i).join
  | none => none

/-- Sparse-array `delete table[id]`: clears the slot without shrinking the
array; deleting out of range or at NaN changes nothing. -/
def sparseClear (t : List (Option α)) : Option Nat → List (Option α)
  | some i => t.set i none
  | none => t

/-- Behaviour of a user method found on a registered type's prototype:
applied to the construction arguments of the instance standing for `this`
and the call arguments, it either returns a value or throws a message
(an `async` method is represented by its awaited outcome). -/
def UserFun : Type := List Value → List Value → Except String Value

/-- The `exposed` static property of a type passed to `register`:
missing/falsy, a truthy non-array, or an array of method names. -/
inductive ExposedProp where
  | absent
  | nonArray
  | arr (names : List String)

/-- A constructible type handed to `register`: its `exposed` declaration
and its prototype (a name maps to `some` function exactly when
`type.prototype[name] instanceof Function`). -/
structure ServiceType where
  exposed : ExposedProp
  prototype : String → Option UserFun

/-- A property value the method lookup can find: a user function from a
prototype, one of the three built-in system methods that the constructor
installs at instance 0, or a truthy value that is not callable — the
object the inherited `__proto__` accessor yields, on which the `!method`
guard passes but `method.apply` throws. -/
inductive Method where
  | user (f : UserFun)
  | sysConnect
  | sysDisconnect
  | sysImportScripts
  | nonFunction

/-- A service descriptor `{name, type, methods}`; `type` is `none` only for
the built-in system entry. -/
structure ServiceData where
  name : String
  type : Option ServiceType
  methods : List (String × Method)

/-- A live object held in the instance table: the peer itself for slot 0,
or a user object remembered by the arguments `new type(...args)` received. -/
inductive Instance where
  | system
  | obj (ctorArgs : List Value)

/-- The construction arguments standing for a user instance's state. -/
def Instance.ctorArgs : Instance → List Value
  | .system => []
  | .obj a => a

/-- An instance-table entry `{instance, serviceData}`. -/
structure InstanceEntry where
  instance_ : Instance
  serviceData : ServiceData

/-- A pending-call entry: the stored `{resolve, reject}` pair is identified
by the call that created it, recorded as that call's parameters. -/
structure PendingCall where
  instanceId : Nat
  methodName : String
  args : Value

/-- One peer's state: the three tables of the `ServiceContext` class. -/
structure ServiceContext where
  resolvers_ : List (Option PendingCall)
  services_ : List (String × ServiceData)
  instances_ : List (Option InstanceEntry)

def kSystemServiceId : Nat := 0
def kDispatch : Nat := 0
def kResolve : Nat := 1
def kReject : Nat := 2

/-- A posted 5-element wire message; `callId` and `instanceId` may echo a
NaN coercion (`none`), `methodName` is `none` where the source posts null. -/
structure WireMsg where
  kind : Nat
  callId : Option Nat
  instanceId : Option Nat
  methodName : Option String
  payload : Value

/-- The service data of the built-in system service installed at slot 0. -/
def systemServiceData : ServiceData :=
  { name := "System"
    type := none
    methods := [("connect", .sysConnect), ("disconnect", .sysDisconnect),
                ("importScripts", .sysImportScripts)] }

/-- The instance-table entry the constructor installs at slot 0. -/
def systemEntry : InstanceEntry := ⟨.system, systemServiceData⟩

/-- The state the `ServiceContext` constructor builds: empty pending-call
table and registry, the system service alone in the instance table. -/
def ServiceContext.init : ServiceContext :=
  { resolvers_ := [], services_ := [], instances_ := [some systemEntry] }

/-- The loop of `register` building the `methods` object from the exposed
list, throwing at the first name that is not a function on the prototype
(the source concatenates the message pieces without a space, giving
"isnot a function"). -/
def buildMethods (svc : String) (t : ServiceType) :
    List String → List (String × Method) → Except String (List (String × Method))
  | [], acc => .ok acc
  | m :: rest, acc =>
      match t.prototype m with
      | some f => buildMethods svc t rest (mapSet acc m (.user f))
      | none => .error s!"Service '{svc}': Exposed method '{m}' isnot a function."

/-- `ServiceContext.register(name, type)`: validates the name is free and
the exposed list well-formed, builds the method table, and only then
stores the descriptor (every throw precedes the `services_.set`). -/
def ServiceContext.register (st : ServiceContext) (name : String) (type : ServiceType) :
    Except String ServiceContext :=
  if (mapGet st.services_ name).isSome then
    .error s!"Service '{name}': already registered."
  else
    match type.exposed with
    | .absent => .error s!"Service '{name}': No methods exposed."
    | .nonArray => .error s!"Service '{name}': exposed property must be an array."
    | .arr names =>
      if names = [] then .error s!"Service '{name}': No methods exposed."
      else
        match buildMethods name type names [] with
        | .error e => .error e
        | .ok methods =>
            .ok { st with
                  services_ := mapSet st.services_ name ⟨name, some type, methods⟩ }

/-- JS spread `...v` of an argument value: arrays spread to their elements,
strings to their characters, anything else throws. -/
def spreadIterable : Value → Except String (List Value)
  | .arr l => .ok l
  | .str s => .ok (s.data.map fun c => .str (String.mk [c]))
  | v => .error s!"{v.jsString} is not iterable"

/-- `connectService_(name, args)`: looks the name up in the registry
(only a string key can match a registered name), instantiates
`new serviceData.type(...args)`, appends the entry, and returns
`[instances_.length - 1, Object.keys(serviceData.methods)]`; a throw
(unknown name, non-iterable args) precedes the append. -/
def ServiceContext.connectService_ (st : ServiceContext) (name args : Value) :
    Except String (ServiceContext × Value) :=
  match name with
  | .str n =>
    match mapGet st.services_ n with
    | none => .error s!"No service with name '{n}'."
    | some serviceData =>
        match spreadIterable args with
        | .error e => .error e
        | .ok ctorArgs =>
            .ok ({ st with
                   instances_ := st.instances_ ++ [some ⟨.obj ctorArgs, serviceData⟩] },
                 .arr [.num st.instances_.length,
                       .arr ((objKeys serviceData.methods).map .str)])
  | v => .error s!"No service with name '{v.jsString}'."

/-- A JS property key that addresses an array index: a number, or a
canonical numeric string (`"0"`, `"17"`, ... — exactly `toString n`;
`"01"`, `"+1"` or `"1.0"` name ordinary properties an array does not
have). JS stops treating values at or beyond 2^32-1 as indices; such ids
never arise from this protocol's length-bounded allocation and are not
excluded. -/
def jsArrayIndex : Value → Option Nat
  | .num n => some n
  | .str s =>
      if !s.data.isEmpty && s.data.all Char.isDigit && toString (digitsToNat s.data) = s
      then some (digitsToNat s.data)
      else none
  | _ => none

/-- `disconnectService_(instanceId)`: throws on a falsy id (slot 0 is the
connection service), then `delete this.instances_[instanceId]`: a number
or a canonical numeric string addresses an array index and clears that
slot — in particular the truthy string "0" passes the guard and clears
slot 0 — while any other key is a no-op property delete. Deleting at or
beyond the array length changes nothing. -/
def ServiceContext.disconnectService_ (st : ServiceContext) (instanceId : Value) :
    Except String ServiceContext :=
  if instanceId.falsy then
    .error s!"Invalid instanceId {instanceId.jsString}"
  else
    .ok { st with
          instances_ := match jsArrayIndex instanceId with
            | some n => st.instances_.set n none
            | none => st.instances_ }

/-- `importScripts_(scripts)` runs `self.importScripts(...scripts)`:
loading is a host effect outside the model, but spreading a non-iterable
value still throws. -/
def ServiceContext.importScripts_ (st : ServiceContext) (scripts : Value) :
    Except String ServiceContext :=
  match spreadIterable scripts with
  | .error e => .error e
  | .ok _ => .ok st

/-- `invoke_(instanceId, methodName, args)`: appends a fresh pending-call
entry (its id is the table length before the push) and posts the dispatch
message `[kDispatch, resolvers_.length - 1, instanceId, methodName, args]`;
the allocated call id is returned alongside. -/
def ServiceContext.invoke_ (st : ServiceContext) (instanceId : Nat) (methodName : String)
    (args : Value) : ServiceContext × WireMsg × Nat :=
  let callId := st.resolvers_.length
  ({ st with resolvers_ := st.resolvers_ ++ [some ⟨instanceId, methodName, args⟩] },
   ⟨kDispatch, some callId, some instanceId, some methodName, args⟩, callId)

/-- The observable settling of a pending call: which stored resolve/reject
pair fired, identified by the call that created it, and with what payload
(a rejection's payload is wrapped in `new Error(...)` on delivery). -/
inductive Settlement where
  | resolved (call : PendingCall) (value : Value)
  | rejected (call : PendingCall) (errorMessage : Value)

/-- `resolve_(resolverId, value)`: throws loudly when the slot is empty or
unknown, otherwise deletes the entry and fires its `resolve` callback. -/
def ServiceContext.resolve_ (st : ServiceContext) (resolverId : Option Nat) (value : Value) :
    Except String (ServiceContext × Settlement) :=
  match sparseGet st.resolvers_ resolverId with
  | none => .error s!"Resolve: Bad resolverId '{jsShowId resolverId}'."
  | some resolver =>
      .ok ({ st with resolvers_ := sparseClear st.resolvers_ resolverId },
           .resolved resolver value)

/-- `reject_(resolverId, errorMessage)`: throws loudly when the slot is
empty or unknown, otherwise deletes the entry and fires its `reject`
callback with `new Error(errorMessage)`. -/
def ServiceContext.reject_ (st : ServiceContext) (resolverId : Option Nat)
    (errorMessage : Value) : Except String (ServiceContext × Settlement) :=
  match sparseGet st.resolvers_ resolverId with
  | none => .error s!"Reject: Bad resolverId '{jsShowId resolverId}'."
  | some resolver =>
      .ok ({ st with resolvers_ := sparseClear st.resolvers_ resolverId },
           .rejected resolver errorMessage)

/-- `Function.prototype.apply`'s argument handling: an array supplies its
elements, `undefined`/`null` supply none, an object without a numeric
`length` supplies none, and a primitive throws. -/
def applyArgs : Value → Except String (List Value)
  | .arr l => .ok l
  | .undef => .ok []
  | .nullv => .ok []
  | .objv => .ok []
  | _ => .error "CreateListFromArrayLike called on non-object"

/-- `Object.prototype.toString` (and the default `toLocaleString`) applied
to an ordinary object. -/
def protoToStringFun : UserFun := fun _ _ => .ok (.str "[object Object]")

/-- The properties a bare object literal inherits from `Object.prototype`,
as what `methods[name]` yields when the own lookup misses, each with the
behaviour of `found.apply(entry.instance, args)`: `toString` and
`toLocaleString` render an ordinary object as "[object Object]";
`valueOf` returns the instance and `constructor` (`Object`) returns an
object, both outside the wire vocabulary (`objv`); `isPrototypeOf` is
`false` against every deserialized wire value; `hasOwnProperty` and
`propertyIsEnumerable` reflect on own-property layouts the model does not
carry and are rendered `false` on it; `__lookupGetter__` and
`__lookupSetter__` find no accessor on these instances;
`__defineGetter__` and `__defineSetter__` return `undefined` (the
accessor they install on the host object is outside the modelled state);
and reading `__proto__` yields `Object.prototype` itself, which is not
callable. -/
def objectProtoProps : List (String × Method) :=
  [("constructor", .user fun _ _ => .ok .objv),
   ("hasOwnProperty", .user fun _ _ => .ok (.bool false)),
   ("isPrototypeOf", .user fun _ _ => .ok (.bool false)),
   ("propertyIsEnumerable", .user fun _ _ => .ok (.bool false)),
   ("toLocaleString", .user protoToStringFun),
   ("toString", .user protoToStringFun),
   ("valueOf", .user fun _ _ => .ok .objv),
   ("__defineGetter__", .user fun _ _ => .ok .undef),
   ("__defineSetter__", .user fun _ _ => .ok .undef),
   ("__lookupGetter__", .user fun _ _ => .ok .undef),
   ("__lookupSetter__", .user fun _ _ => .ok .undef),
   ("__proto__", .nonFunction)]

/-- `entry.serviceData.methods[methodName]` on the bare object literal the
method tables are: the own entry, or — when the own lookup misses — the
property of the same name inherited from `Object.prototype`. -/
def methodsGet (m : List (String × Method)) (k : String) : Option Method :=
  match mapGet m k with
  | some v => some v
  | none => mapGet objectProtoProps k

/-- `method.apply(entry.instance, args)` awaited: a user function runs on
the instance's state; the three system methods run their state-mutating
handlers, destructuring their parameters from the argument list. -/
def ServiceContext.runMethod (st : ServiceContext) (m : Method) (inst : Instance)
    (args : List Value) : Except String (ServiceContext × Value) :=
  match m with
  | .user f =>
      match f inst.ctorArgs args with
      | .error e => .error e
      | .ok v => .ok (st, v)
  | .sysConnect => st.connectService_ (args.getD 0 .undef) (args.getD 1 .undef)
  | .sysDisconnect =>
      match st.disconnectService_ (args.getD 0 .undef) with
      | .error e => .error e
      | .ok st' => .ok (st', .undef)
  | .sysImportScripts =>
      match st.importScripts_ (args.getD 0 .undef) with
      | .error e => .error e
      | .ok st' => .ok (st', .undef)
  | .nonFunction => .error "method.apply is not a function"

/-- The reject reply `[kReject, resolverId, instanceId, null, e.message]`. -/
def rejectMsg (rid iid : Option Nat) (msg : String) : WireMsg :=
  ⟨kReject, rid, iid, none, .str msg⟩

/-- The resolve reply `[kResolve, resolverId, instanceId, null, result]`. -/
def resolveMsg (rid iid : Option Nat) (v : Value) : WireMsg :=
  ⟨kResolve, rid, iid, none, v⟩

/-- `dispatch_(resolverId, instanceId, methodName, args)`: looks up the
instance slot and the method, applies it, and posts exactly one reply —
a resolve with the awaited result, or a reject carrying the message of
whatever was thrown; every throw is caught at this boundary and the state
is unchanged on the reject paths. -/
def ServiceContext.dispatch_ (st : ServiceContext) (resolverId instanceId : Option Nat)
    (methodName : String) (args : Value) : ServiceContext × WireMsg :=
  match sparseGet st.instances_ instanceId with
  | none => (st, rejectMsg resolverId instanceId s!"Invalid instance {jsShowId instanceId}")
  | some entry =>
    match methodsGet entry.serviceData.methods methodName with
    | none =>
        (st, rejectMsg resolverId instanceId
          s!"Service '{entry.serviceData.name}': Invalid method name '{methodName}'.")
    | some method =>
        match applyArgs args with
        | .error e => (st, rejectMsg resolverId instanceId e)
        | .ok argList =>
            match st.runMethod method entry.instance_ argList with
            | .ok (st', result) => (st', resolveMsg resolverId instanceId result)
            | .error e => (st, rejectMsg resolverId instanceId e)

/-- The forwarding closure `(...args) => this.invoke_(instanceId, property,
args)` that the proxy's get trap creates and memoizes. -/
structure BoundCall where
  instanceId : Nat
  property : String
  deriving Repr, DecidableEq

/-- Calling a memoized forwarding closure issues the dispatch. -/
def BoundCall.call (h : BoundCall) (st : ServiceContext) (args : List Value) :
    ServiceContext × WireMsg × Nat :=
  st.invoke_ h.instanceId h.property (.arr args)

/-- The proxy `connect` returns: the target's `instanceId_` field and the
`methods` map seeded `name -> null` for every declared method name. -/
structure ServiceProxy where
  instanceId_ : Nat
  methods : List (String × Option BoundCall)
  deriving Repr, DecidableEq

/-- `new Map(methodNames.map((value) => [value, null]))` and the proxy
around it: every declared name starts unmemoized. -/
def ServiceProxy.build (instanceId : Nat) (methodNames : List String) : ServiceProxy :=
  ⟨instanceId, methodNames.foldl (fun m v => mapSet m v none) []⟩

/-- The proxy's get trap: a memoized handler is returned as is; a declared
but unmemoized name (`handler === null`) gets a fresh forwarding closure
stored and returned; an undeclared name falls through to `undefined`. -/
def ServiceProxy.get (p : ServiceProxy) (property : String) :
    Option BoundCall × ServiceProxy :=
  match mapGet p.methods property with
  | some (some handler) => (some handler, p)
  | some none =>
      let handler : BoundCall := ⟨p.instanceId_, property⟩
      (some handler, { p with methods := mapSet p.methods property (some handler) })
  | none => (none, p)

/-- `connect` up to its await: `invoke_(kSystemServiceId, 'connect',
[name, args || []])`. -/
def ServiceContext.connectSend (st : ServiceContext) (name args : Value) :
    ServiceContext × WireMsg × Nat :=
  st.invoke_ kSystemServiceId "connect" (.arr [name, if args.falsy then .arr [] else args])

/-- `connect` after its await: destructures `[instanceId, methodNames]`
from the resolve payload and builds the proxy; a payload that does not
destructure into a number and an array makes the continuation throw,
modelled as `none` (method names that are not strings could never match a
string property read and are dropped). -/
def ServiceContext.connectReceive (payload : Value) : Option ServiceProxy :=
  match payload with
  | .arr (.num instanceId :: .arr methodNames :: _) =>
      some (ServiceProxy.build instanceId
        (methodNames.filterMap fun v => match v with | .str s => some s | _ => none))
  | _ => none

/-- `Object.getOwnPropertyDescriptor(proxy, 'instanceId_')` bypasses the
get trap and finds the target's own field on every proxy `connect` built;
an object without the field has no descriptor (`none`). -/
def ServiceProxy.descriptor (p : ServiceProxy) : Option Nat := some p.instanceId_

/-- `disconnect(proxy)`: throws when no `instanceId_` descriptor is
recoverable, otherwise issues `invoke_(kSystemServiceId, 'disconnect',
[descriptor.value])`. -/
def ServiceContext.disconnect (st : ServiceContext) (descriptor : Option Nat) :
    Except String (ServiceContext × WireMsg × Nat) :=
  match descriptor with
  | none => .error "Invalid instance."
  | some v => .ok (st.invoke_ kSystemServiceId "disconnect" (.arr [.num v]))

/-- The `concat` method of the `Speaker` example service of worker.js:
prepends the construction-argument prefix to its argument. -/
def speakerFun : UserFun := fun ctorArgs args =>
  .ok (.str ((ctorArgs.getD 0 Value.undef).jsString ++ (args.getD 0 Value.undef).jsString))

/-- The `Speaker` example type of worker.js, exposing `concat`. -/
def speakerType : ServiceType :=
  { exposed := .arr ["concat"]
    prototype := fun m => if m = "concat" then some speakerFun else none }

/-- A method that throws `Error("boom")`. -/
def boomFun : UserFun := fun _ _ => .error "boom"

/-- An instance entry for a service exposing the throwing method. -/
def boomEntry : InstanceEntry :=
  ⟨.obj [], ⟨"boomer", none, [("explode", .user boomFun)]⟩⟩

section Helpers

variable {α : Type}

theorem mapGet_mapSet (m : List (String × α)) (k k' : String) (v : α) :
    mapGet (mapSet m k v) k' = if k = k' then some v else mapGet m k' := by
  induction m with
  | nil => simp [mapGet, mapSet]
  | cons a rest ih =>
      obtain ⟨ka, va⟩ := a
      by_cases hk : ka = k
      · subst hk
        by_cases hk' : ka = k' <;> simp [mapGet, mapSet, hk']
      · by_cases hk' : ka = k'
        · subst hk'
          simp [mapGet, mapSet, hk]
          rw [if_neg (fun h : k = ka => hk h.symm)]
        · simp [mapGet, mapSet, hk, hk', ih]

theorem mem_objKeys_mapSet (m : List (String × α)) (k k' : String) (v : α) :
    k' ∈ objKeys (mapSet m k v) ↔ k' ∈ objKeys m ∨ k' = k := by
  induction m with
  | nil => simp [objKeys, mapSet]
  | cons a rest ih =>
      obtain ⟨ka, va⟩ := a
      by_cases hk : ka = k <;>
        simp [objKeys, mapSet, hk] at ih ⊢ <;> tauto

theorem sparseGet_set_none (t : List (Option α)) (n : Nat) :
    sparseGet (t.set n none) (some n) = none := by
  induction t generalizing n with
  | nil => simp [sparseGet]
  | cons a rest ih =>
      cases n with
      | zero => simp [sparseGet]
      | succ n => simpa [sparseGet, List.get?] using ih n

theorem sparseGet_zero_append (t : List (Option α)) (x : Option α) (e : α)
    (h : sparseGet t (some 0) = some e) :
    sparseGet (t ++ [x]) (some 0) = some e := by
  cases t with
  | nil => simp [sparseGet] at h
  | cons a rest => simpa [sparseGet, List.get?] using h

theorem sparseGet_append_right (t l : List (Option α)) (c : Nat) :
    sparseGet (t ++ l) (some (t.length + c)) = sparseGet l (some c) := by
  induction t with
  | nil => simp [sparseGet]
  | cons a rest ih =>
      have harith : (a :: rest).length + c = (rest.length + c) + 1 := by
        simp [List.length]; omega
      rw [harith]
      simpa [sparseGet, List.get?] using ih

end Helpers

theorem buildMethods_ok_keys (svc : String) (T : ServiceType) (ms : List String)
    (acc out : List (String × Method)) (h : buildMethods svc T ms acc = .ok out)
    (k : String) : k ∈ objKeys out ↔ k ∈ objKeys acc ∨ k ∈ ms := by
  induction ms generalizing acc with
  | nil =>
      simp only [buildMethods] at h
      cases h
      simp
  | cons m rest ih =>
      simp only [buildMethods] at h
      cases hp : T.prototype m with
      | none => rw [hp] at h; cases h
      | some f =>
          rw [hp] at h
          rw [ih _ h, mem_objKeys_mapSet, List.mem_cons]
          tauto

theorem buildMethods_error_iff (svc : String) (T : ServiceType) (ms : List String)
    (acc : List (String × Method)) :
    (∃ e, buildMethods svc T ms acc = .error e) ↔ ∃ m ∈ ms, T.prototype m = none := by
  induction ms generalizing acc with
  | nil => simp [buildMethods]
  | cons m rest ih =>
      simp only [buildMethods]
      cases hp : T.prototype m with
      | none => simp [hp]
      | some f => simp [hp, ih]

theorem mapGet_build_foldl (ns : List String) (acc : List (String × Option BoundCall))
    (k : String) :
    mapGet (ns.foldl (fun m v => mapSet m v none) acc) k =
      if k ∈ ns then some none else mapGet acc k := by
  induction ns generalizing acc with
  | nil => simp
  | cons v rest ih =>
      simp only [List.foldl, ih, mapGet_mapSet]
      by_cases hv : v = k
      · subst hv; simp
      · by_cases hr : k ∈ rest <;> simp [hr, hv, Ne.symm hv]

theorem mapGet_build (id : Nat) (ns : List String) (k : String) :
    mapGet (ServiceProxy.build id ns).methods k =
      if k ∈ ns then some none else none := by
  simp [ServiceProxy.build, mapGet_build_foldl, mapGet]

/-- The (trivial) string projection of the wire-encoded method-name list. -/
theorem filterMap_str (l : List String) :
    ((l.map Value.str).filterMap fun v =>
        match v with | .str s => some s | _ => none) = l := by
  induction l with
  | nil => simp
  | cons a rest ih => simp [ih]

/-- Issuing a synchronous burst of calls: each pushes its pending entry and
posts its dispatch, in order. -/
def issueBurst (st : ServiceContext) : List PendingCall → ServiceContext
  | [] => st
  | c :: cs => issueBurst (st.invoke_ c.instanceId c.methodName c.args).1 cs

theorem issueBurst_resolvers (st : ServiceContext) (cs : List PendingCall) :
    (issueBurst st cs).resolvers_ = st.resolvers_ ++ cs.map some := by
  induction cs generalizing st with
  | nil => simp [issueBurst]
  | cons c rest ih =>
      simp [issueBurst, ih, ServiceContext.invoke_]

/-- C2 counterexample: "toString" is not among boomer's declared exposed
methods (only "explode" is), yet the claimed invalid-method reject is not
sent: the bare methods table inherits `Object.prototype.toString`, the
`!method` guard finds it truthy, and the dispatch invokes it and resolves
with "[object Object]". -/
theorem c2_dispatch_counterexample :
    ServiceContext.dispatch_ ⟨[], [], [some systemEntry, some boomEntry]⟩
        (some 0) (some 1) "toString" (.arr []) =
      (⟨[], [], [some systemEntry, some boomEntry]⟩,
       resolveMsg (some 0) (some 1) (.str "[object Object]")) ∧
    (resolveMsg (some 0) (some 1) (.str "[object Object]")).kind ≠ kReject :=
  ⟨rfl, by decide⟩

/-- C2 amended: an inbound dispatch replies with a reject
"Invalid instance <id>" when the instance slot is empty or unknown; with a
reject naming the service and the invalid method name when the name is
found neither among the descriptor's declared methods nor on the
`Object.prototype` chain of the bare methods table; a name that misses the
declared set but hits an inherited `Object.prototype` function is invoked
like a declared method (dispatching "toString" resolves with
"[object Object]" instead of rejecting); otherwise the declared method
bound to the instance runs, a resolve carries its awaited result, and a
thrown failure becomes a reject with the failure's message text — a
method throwing `Error("boom")` makes the issuer's promise reject with
message "boom". -/
theorem c2_dispatch_semantics_amended (st : ServiceContext) (rid iid : Option Nat)
    (mname : String) (entry : InstanceEntry) :
    (∀ args, sparseGet st.instances_ iid = none →
      st.dispatch_ rid iid mname args =
        (st, rejectMsg rid iid s!"Invalid instance {jsShowId iid}")) ∧
    (∀ args, sparseGet st.instances_ iid = some entry →
      mapGet entry.serviceData.methods mname = none →
      mapGet objectProtoProps mname = none →
      st.dispatch_ rid iid mname args =
        (st, rejectMsg rid iid
          s!"Service '{entry.serviceData.name}': Invalid method name '{mname}'.")) ∧
    (∀ f args v, sparseGet st.instances_ iid = some entry →
      mapGet entry.serviceData.methods mname = some (.user f) →
      f entry.instance_.ctorArgs args = .ok v →
      st.dispatch_ rid iid mname (.arr args) = (st, resolveMsg rid iid v)) ∧
    (∀ f args e, sparseGet st.instances_ iid = some entry →
      mapGet entry.serviceData.methods mname = some (.user f) →
      f entry.instance_.ctorArgs args = .error e →
      st.dispatch_ rid iid mname (.arr args) = (st, rejectMsg rid iid e)) ∧
    (∀ args, sparseGet st.instances_ iid = some entry →
      mapGet entry.serviceData.methods "toString" = none →
      st.dispatch_ rid iid "toString" (.arr args) =
        (st, resolveMsg rid iid (.str "[object Object]"))) := by
  refine ⟨?_, ?_, ?_, ?_, ?_⟩
  · intro args h
    simp [ServiceContext.dispatch_, h]
  · intro args h1 h2 h3
    simp [ServiceContext.dispatch_, methodsGet, h1, h2, h3]
  · intro f args v h1 h2 h3
    simp [ServiceContext.dispatch_, methodsGet, h1, h2, applyArgs,
          ServiceContext.runMethod, h3]
  · intro f args e h1 h2 h3
    simp [ServiceContext.dispatch_, methodsGet, h1, h2, applyArgs,
          ServiceContext.runMethod, h3]
  · intro args h1 h2
    have hp : mapGet objectProtoProps "toString" = some (.user protoToStringFun) := rfl
    simp [ServiceContext.dispatch_, methodsGet, h1, h2, hp, applyArgs,
          ServiceContext.runMethod, protoToStringFun]

/-- Witness for C2's amended theorem at the "boom" scenario: the
registered method throws `Error("boom")` and the dispatch replies with a
reject carrying "boom". -/
theorem c2_dispatch_semantics_amended_witness :
    ServiceContext.dispatch_ ⟨[], [], [some systemEntry, some boomEntry]⟩
        (some 0) (some 1) "explode" (.arr []) =
      (⟨[], [], [some systemEntry, some boomEntry]⟩,
       rejectMsg (some 0) (some 1) "boom") :=
  (c2_dispatch_semantics_amended ⟨[], [], [some systemEntry, some boomEntry]⟩
      (some 0) (some 1) "explode" boomEntry).2.2.2.1 boomFun [] "boom" rfl rfl rfl

/-- C3 counterexample: the claim says destroy fails for every unknown or
already-cleared instanceId, but on a fresh peer disconnecting the unknown
id 5 succeeds without error: the falsy check passes and the out-of-range
delete is a silent no-op. -/
theorem c3_destroy_counterexample :
    ServiceContext.init.disconnectService_ (.num 5) = .ok ServiceContext.init := rfl

/-- C3 amended: destroy fails exactly on a falsy instanceId (in particular
on 0); a nonzero numeric id has its slot cleared — silently succeeding
even when the slot was already empty or out of range — and after the
clear any dispatch to that id rejects with the invalid-instance lookup
error. -/
theorem c3_destroy_amended (st : ServiceContext) (n : Nat) (v : Value) :
    (v.falsy = true →
      st.disconnectService_ v = .error s!"Invalid instanceId {v.jsString}") ∧
    (st.disconnectService_ (.num 0) = .error "Invalid instanceId 0") ∧
    (n ≠ 0 →
      st.disconnectService_ (.num n) =
        .ok { st with instances_ := st.instances_.set n none }) ∧
    (∀ rid mname args st', n ≠ 0 →
      st.disconnectService_ (.num n) = .ok st' →
      st'.dispatch_ rid (some n) mname args =
        (st', rejectMsg rid (some n) s!"Invalid instance {n}")) := by
  have hfls : ∀ m : Nat, m ≠ 0 → (Value.num m).falsy = false := by
    intro m hm
    simp [Value.falsy, hm]
  refine ⟨?_, rfl, ?_, ?_⟩
  · intro h
    simp [ServiceContext.disconnectService_, h]
  · intro hn
    simp [ServiceContext.disconnectService_, jsArrayIndex, hfls n hn]
  · intro rid mname args st' hn h
    simp [ServiceContext.disconnectService_, jsArrayIndex, hfls n hn] at h
    have hget : sparseGet st'.instances_ (some n) = none := by
      rw [← h]
      exact sparseGet_set_none _ _
    simp [ServiceContext.dispatch_, hget, jsShowId]
    rfl

/-- Witness for C3's amended theorem: on a fresh peer, disconnecting the
live-shaped id 1 clears that slot, dispatch to it then rejects, and id 0
is refused. -/
theorem c3_destroy_amended_witness :
    ServiceContext.init.disconnectService_ (.num 1) =
      .ok { ServiceContext.init with
            instances_ := ServiceContext.init.instances_.set 1 none } :=
  (c3_destroy_amended ServiceContext.init 1 (.num 0)).2.2.1 (by decide)

/-- C4: settling a pending call removes its table entry and fires the
stored callback with the payload; an unknown callId raises the distinct
loud "Bad resolverId" error rather than being ignored, and since settling
clears the slot, a second resolve or reject for the same id is an error —
every call id settles at most once. -/
theorem c4_settle_once (st : ServiceContext) (c : Nat) (r : PendingCall) (v e : Value) :
    (sparseGet st.resolvers_ (some c) = some r →
      st.resolve_ (some c) v =
        .ok ({ st with resolvers_ := st.resolvers_.set c none }, .resolved r v) ∧
      st.reject_ (some c) e =
        .ok ({ st with resolvers_ := st.resolvers_.set c none }, .rejected r e)) ∧
    (sparseGet st.resolvers_ (some c) = none →
      st.resolve_ (some c) v = .error s!"Resolve: Bad resolverId '{c}'." ∧
      st.reject_ (some c) e = .error s!"Reject: Bad resolverId '{c}'.") ∧
    (∀ st' s, st.resolve_ (some c) v = .ok (st', s) →
      st'.resolve_ (some c) v = .error s!"Resolve: Bad resolverId '{c}'." ∧
      st'.reject_ (some c) e = .error s!"Reject: Bad resolverId '{c}'.") ∧
    (∀ st' s, st.reject_ (some c) e = .ok (st', s) →
      st'.resolve_ (some c) v = .error s!"Resolve: Bad resolverId '{c}'." ∧
      st'.reject_ (some c) e = .error s!"Reject: Bad resolverId '{c}'.") := by
  have hcleared : ∀ st' : ServiceContext,
      st'.resolvers_ = st.resolvers_.set c none →
      st'.resolve_ (some c) v = .error s!"Resolve: Bad resolverId '{c}'." ∧
      st'.reject_ (some c) e = .error s!"Reject: Bad resolverId '{c}'." := by
    intro st' hres
    have hget : sparseGet st'.resolvers_ (some c) = none := by
      rw [hres]
      exact sparseGet_set_none _ _
    constructor
    · simp [ServiceContext.resolve_, hget, jsShowId]
      rfl
    · simp [ServiceContext.reject_, hget, jsShowId]
      rfl
  refine ⟨?_, ?_, ?_, ?_⟩
  · intro h
    constructor
    · simp [ServiceContext.resolve_, h, sparseClear]
    · simp [ServiceContext.reject_, h, sparseClear]
  · intro h
    constructor
    · simp [ServiceContext.resolve_, h, jsShowId]
      rfl
    · simp [ServiceContext.reject_, h, jsShowId]
      rfl
  · intro st' s h
    cases hr : sparseGet st.resolvers_ (some c) with
    | none => simp [ServiceContext.resolve_, hr] at h
    | some r' =>
        simp [ServiceContext.resolve_, hr, sparseClear] at h
        exact hcleared st' (by rw [← h.1])
  · intro st' s h
    cases hr : sparseGet st.resolvers_ (some c) with
    | none => simp [ServiceContext.reject_, hr] at h
    | some r' =>
        simp [ServiceContext.reject_, hr, sparseClear] at h
        exact hcleared st' (by rw [← h.1])

/-- Witness for C4: on a peer with one outstanding call (id 0), the
resolve settles that entry and removes it. -/
theorem c4_settle_once_witness :
    ServiceContext.resolve_ ⟨[some ⟨1, "m", .arr []⟩], [], [some systemEntry]⟩
        (some 0) (.str "v") =
      .ok ({ resolvers_ := [some (⟨1, "m", .arr []⟩ : PendingCall)].set 0 none,
             services_ := [], instances_ := [some systemEntry] },
           .resolved ⟨1, "m", .arr []⟩ (.str "v")) :=
  ((c4_settle_once ⟨[some ⟨1, "m", .arr []⟩], [], [some systemEntry]⟩ 0
      ⟨1, "m", .arr []⟩ (.str "v") (.str "e")).1 rfl).1


/-- C5: after a burst of calls is issued in order, the resolve (or reject)
message carrying the id allocated to the c-th call settles exactly that
call's stored deferred — identified by the call's own parameters — with
the given payload, and clears only that slot; settlements may therefore
arrive in any order without cross-contaminating results. -/
theorem c5_out_of_order_matching (st : ServiceContext) (cs : List PendingCall)
    (c : Nat) (call : PendingCall) (v e : Value) (hc : cs.get? c = some call) :
    (issueBurst st cs).resolve_ (some (st.resolvers_.length + c)) v =
      .ok ({ issueBurst st cs with
             resolvers_ :=
               (issueBurst st cs).resolvers_.set (st.resolvers_.length + c) none },
           .resolved call v) ∧
    (issueBurst st cs).reject_ (some (st.resolvers_.length + c)) e =
      .ok ({ issueBurst st cs with
             resolvers_ :=
               (issueBurst st cs).resolvers_.set (st.resolvers_.length + c) none },
           .rejected call e) := by
  have hget : sparseGet (issueBurst st cs).resolvers_
      (some (st.resolvers_.length + c)) = some call := by
    rw [issueBurst_resolvers, sparseGet_append_right]
    rw [List.get?_eq_getElem?] at hc
    simp [sparseGet, List.get?_eq_getElem?, hc]
  constructor
  · simp [ServiceContext.resolve_, hget, sparseClear]
  · simp [ServiceContext.reject_, hget, sparseClear]

/-- Witness for C5: two calls issued back to back on a fresh peer; the
reply for id 1 settles the second call's deferred with its own payload,
even though the reply for id 0 has not arrived. -/
theorem c5_out_of_order_matching_witness :
    (issueBurst ServiceContext.init
        [⟨1, "slow", .arr []⟩, ⟨2, "fast", .arr []⟩]).resolve_
        (some (ServiceContext.init.resolvers_.length + 1)) (.str "f") =
      .ok ({ issueBurst ServiceContext.init
               [⟨1, "slow", .arr []⟩, ⟨2, "fast", .arr []⟩] with
             resolvers_ :=
               (issueBurst ServiceContext.init
                   [⟨1, "slow", .arr []⟩, ⟨2, "fast", .arr []⟩]).resolvers_.set
                 (ServiceContext.init.resolvers_.length + 1) none },
           .resolved ⟨2, "fast", .arr []⟩ (.str "f")) :=
  (c5_out_of_order_matching ServiceContext.init
      [⟨1, "slow", .arr []⟩, ⟨2, "fast", .arr []⟩] 1 ⟨2, "fast", .arr []⟩
      (.str "f") (.str "e") rfl).1

/-- C6: servicing `connect` for an unregistered name leaves the serving
peer's state — in particular its instance table — unchanged and produces
exactly one reply, a reject carrying the lookup error "No service with
name ...": dispatch is a total function of the state, so the request
neither hangs nor resolves. -/
theorem c6_connect_unknown_name (st : ServiceContext) (rid : Option Nat)
    (n : String) (ctorArgs : Value)
    (hsys : sparseGet st.instances_ (some 0) = some systemEntry)
    (hnone : mapGet st.services_ n = none) :
    st.dispatch_ rid (some 0) "connect" (.arr [.str n, ctorArgs]) =
      (st, rejectMsg rid (some 0) s!"No service with name '{n}'.") ∧
    (rejectMsg rid (some 0) s!"No service with name '{n}'.").kind = kReject := by
  refine ⟨?_, rfl⟩
  have hsm : methodsGet systemServiceData.methods "connect" = some Method.sysConnect := rfl
  simp [ServiceContext.dispatch_, hsys, systemEntry, hsm, applyArgs,
        ServiceContext.runMethod, ServiceContext.connectService_, hnone]

/-- Witness for C6: `connect('missing')` on a fresh peer rejects with the
lookup error and creates no instance. -/
theorem c6_connect_unknown_name_witness :
    ServiceContext.init.dispatch_ (some 0) (some 0) "connect"
        (.arr [.str "missing", .arr []]) =
      (ServiceContext.init,
       rejectMsg (some 0) (some 0) "No service with name 'missing'.") :=
  (c6_connect_unknown_name ServiceContext.init (some 0) "missing" (.arr [])
      rfl rfl).1

/-- C9: on a proxy built from an instance id and its method-name list, the
first read of a listed property creates and stores the forwarding closure
bound to that id and property; a second read returns the very same
memoized closure and leaves the proxy unchanged; an unlisted property
reads as undefined; calling the closure issues the dispatch
`invoke_(instanceId, property, args)`; and the proxy's instanceId stays
recoverable through its own-property descriptor, which `disconnect` uses —
failing on an object carrying no such descriptor. -/
theorem c9_proxy_forwarding (id : Nat) (ns : List String) (m : String)
    (st : ServiceContext) :
    (m ∈ ns →
      (ServiceProxy.build id ns).get m =
        (some ⟨id, m⟩,
         ⟨id, mapSet (ServiceProxy.build id ns).methods m (some ⟨id, m⟩)⟩) ∧
      (((ServiceProxy.build id ns).get m).2).get m =
        ((ServiceProxy.build id ns).get m)) ∧
    (m ∉ ns → (ServiceProxy.build id ns).get m = (none, ServiceProxy.build id ns)) ∧
    (∀ args, BoundCall.call ⟨id, m⟩ st args = st.invoke_ id m (.arr args)) ∧
    ((ServiceProxy.build id ns).descriptor = some id ∧
     st.disconnect (ServiceProxy.build id ns).descriptor =
       .ok (st.invoke_ kSystemServiceId "disconnect" (.arr [.num id])) ∧
     st.disconnect none = .error "Invalid instance.") := by
  refine ⟨?_, ?_, fun args => rfl, rfl, rfl, rfl⟩
  · intro hm
    have hg := mapGet_build id ns m
    rw [if_pos hm] at hg
    have h1 : (ServiceProxy.build id ns).get m =
        (some ⟨id, m⟩,
         ⟨id, mapSet (ServiceProxy.build id ns).methods m (some ⟨id, m⟩)⟩) := by
      simp only [ServiceProxy.get, hg]
      rfl
    refine ⟨h1, ?_⟩
    rw [h1]
    simp [ServiceProxy.get, mapGet_mapSet]
  · intro hm
    have hg := mapGet_build id ns m
    rw [if_neg hm] at hg
    simp [ServiceProxy.get, hg]

/-- Witness for C9: on a proxy for instance 1 exposing `concat`, the first
read memoizes the forwarding closure for ("concat", id 1). -/
theorem c9_proxy_forwarding_witness :
    (ServiceProxy.build 1 ["concat"]).get "concat" =
      (some ⟨1, "concat"⟩,
       ⟨1, mapSet (ServiceProxy.build 1 ["concat"]).methods "concat"
             (some ⟨1, "concat"⟩)⟩) :=
  (((c9_proxy_forwarding 1 ["concat"] "concat" ServiceContext.init).1)
      (by decide)).1

/-- A peer state with the worker.js Speaker service registered as "speak". -/
def speakSt : ServiceContext :=
  ⟨[], [("speak", ⟨"speak", some speakerType, [("concat", .user speakerFun)]⟩)],
   [some systemEntry]⟩

theorem proxyGet_isSome (id : Nat) (ns : List String) (m : String) :
    ((((ServiceProxy.build id ns).get m).1).isSome = true) ↔ m ∈ ns := by
  have hg := mapGet_build id ns m
  by_cases hm : m ∈ ns
  · rw [if_pos hm] at hg
    simp [ServiceProxy.get, hg, hm]
  · rw [if_neg hm] at hg
    simp [ServiceProxy.get, hg, hm]

theorem register_ok_arr (st st' : ServiceContext) (name : String) (T : ServiceType)
    (ns : List String) (hexp : T.exposed = .arr ns)
    (h : st.register name T = .ok st') :
    ∃ methods, buildMethods name T ns [] = .ok methods ∧
      st'.services_ = mapSet st.services_ name ⟨name, some T, methods⟩ := by
  simp only [ServiceContext.register, hexp] at h
  split at h
  · cases h
  · split at h
    · cases h
    · split at h
      · cases h
      · cases h
        rename_i methods hbm
        exact ⟨methods, hbm, rfl⟩

/-- C1: after `register(name, Type)` succeeds, servicing a remote
`connect(name)` returns the fresh instance id with the declared method
names, and the proxy built from that payload makes callable exactly the
names of Type's declared exposed list: reading an exposed name yields a
forwarding callable, reading any other name yields undefined. -/
theorem c1_proxy_method_set (st st2 st3 : ServiceContext) (name : String)
    (T : ServiceType) (ns : List String) (ca : List Value) (payload : Value)
    (p : ServiceProxy)
    (hexp : T.exposed = .arr ns)
    (hreg : st.register name T = .ok st2)
    (hconn : st2.connectService_ (.str name) (.arr ca) = .ok (st3, payload))
    (hbuild : ServiceContext.connectReceive payload = some p) :
    ∀ m : String, (((p.get m).1).isSome = true) ↔ m ∈ ns := by
  obtain ⟨methods, hbm, hsv⟩ := register_ok_arr st st2 name T ns hexp hreg
  have hlook : mapGet st2.services_ name = some ⟨name, some T, methods⟩ := by
    rw [hsv, mapGet_mapSet, if_pos rfl]
  simp only [ServiceContext.connectService_, hlook, spreadIterable,
             Except.ok.injEq, Prod.mk.injEq] at hconn
  obtain ⟨hs3, hp⟩ := hconn
  rw [← hp] at hbuild
  simp only [ServiceContext.connectReceive, filterMap_str, Option.some.injEq] at hbuild
  subst hbuild
  intro m
  rw [proxyGet_isSome]
  rw [buildMethods_ok_keys name T ns [] methods hbm m]
  simp [objKeys]

/-- Witness for C1: registering Speaker (exposing exactly `concat`) and
servicing a connect yields a proxy on which `concat` is callable —
instantiated at the name `concat` itself. -/
theorem c1_proxy_method_set_witness :
    ((((ServiceProxy.build 1 ["concat"]).get "concat").1).isSome = true) ↔
      "concat" ∈ ["concat"] :=
  c1_proxy_method_set ServiceContext.init speakSt
    ⟨[], speakSt.services_,
     [some systemEntry,
      some ⟨.obj [.str "Hi"],
            ⟨"speak", some speakerType, [("concat", .user speakerFun)]⟩⟩]⟩
    "speak" speakerType ["concat"] [.str "Hi"]
    (.arr [.num 1, .arr [.str "concat"]]) (ServiceProxy.build 1 ["concat"])
    rfl rfl rfl rfl "concat"

/-- C7: `register` fails exactly when the name is already registered, the
exposed list is missing (falsy), not an array, or empty, or some listed
name is not a function on the prototype; a failure never mutates the
registry — in particular after a failed duplicate register, servicing
`connect(name)` still succeeds against the originally stored descriptor. -/
theorem c7_register_validation (st : ServiceContext) (name : String) (T : ServiceType) :
    ((∃ e, st.register name T = .error e) ↔
      ((mapGet st.services_ name).isSome = true ∨
       T.exposed = .absent ∨ T.exposed = .nonArray ∨ T.exposed = .arr [] ∨
       ∃ ns, T.exposed = .arr ns ∧ ∃ m ∈ ns, T.prototype m = none)) ∧
    (∀ sd ca, mapGet st.services_ name = some sd →
      (∃ e, st.register name T = .error e) ∧
      st.connectService_ (.str name) (.arr ca) =
        .ok ({ st with instances_ := st.instances_ ++ [some ⟨.obj ca, sd⟩] },
             .arr [.num st.instances_.length,
                   .arr ((objKeys sd.methods).map .str)])) := by
  constructor
  · by_cases hs : (mapGet st.services_ name).isSome = true
    · simp [ServiceContext.register, hs]
    · cases hexp : T.exposed with
      | absent => simp [ServiceContext.register, hs, hexp]
      | nonArray => simp [ServiceContext.register, hs, hexp]
      | arr ns =>
          by_cases hns : ns = []
          · subst hns
            simp [ServiceContext.register, hs, hexp]
          · cases hbm : buildMethods name T ns [] with
            | error e =>
                have hex : ∃ m ∈ ns, T.prototype m = none :=
                  (buildMethods_error_iff name T ns []).mp ⟨e, hbm⟩
                refine iff_of_true ?_ (Or.inr (Or.inr (Or.inr (Or.inr ⟨ns, rfl, hex⟩))))
                refine ⟨e, ?_⟩
                simp [ServiceContext.register, hs, hexp, hns, hbm]
            | ok ms =>
                apply iff_of_false
                · rintro ⟨e, he⟩
                  simp [ServiceContext.register, hs, hexp, hns, hbm] at he
                · rintro (h | h | h | h | ⟨ns2, heq, hex⟩)
                  · exact hs h
                  · cases h
                  · cases h
                  · injection h with h2
                    exact hns h2
                  · injection heq with h2
                    subst h2
                    obtain ⟨e, he⟩ := (buildMethods_error_iff name T ns []).mpr hex
                    rw [hbm] at he
                    cases he
  · intro sd ca hsd
    constructor
    · have hs : (mapGet st.services_ name).isSome = true := by rw [hsd]; rfl
      simp [ServiceContext.register, hs]
    · simp [ServiceContext.connectService_, hsd, spreadIterable]

/-- Witness for C7: re-registering "speak" on a peer that already has it
fails, while servicing `connect('speak')` still succeeds against the
original Speaker descriptor. -/
theorem c7_register_validation_witness :
    (∃ e, speakSt.register "speak" speakerType = .error e) ∧
    speakSt.connectService_ (.str "speak") (.arr [.str "Hi"]) =
      .ok ({ speakSt with
             instances_ := speakSt.instances_ ++
               [some ⟨.obj [.str "Hi"],
                     ⟨"speak", some speakerType, [("concat", .user speakerFun)]⟩⟩] },
           .arr [.num speakSt.instances_.length,
                 .arr ((objKeys (⟨"speak", some speakerType,
                     [("concat", .user speakerFun)]⟩ : ServiceData).methods).map .str)]) :=
  (c7_register_validation speakSt "speak" speakerType).2
    ⟨"speak", some speakerType, [("concat", .user speakerFun)]⟩ [.str "Hi"] rfl

end Tasklets
